import Mathlib

/-!
# The typed Secret registry (`pkg/registry/secret/registry.go`)

A shallow embedding of the `storage` adapter that puts strong typing around a
`rest.StandardStorage` backend, together with the properties of the six
delegating operations.

Go constructs are embedded as follows.

* An interface value (`runtime.Object`, `error`, `watch.Interface`) is either
  `nil` or a value tagged with its dynamic type.
* A pointer `*T` is `Ptr T`: `none` is the nil pointer, `some v` a pointer to `v`.
* A Go function is a computation `Go σ α`: it starts in a `World σ` (the
  backend's state and the log of the backend calls made so far) and either
  returns a value or panics, leaving a new world.
* The backend is an arbitrary implementation of the `rest.StandardStorage`
  interface: one state-transition function per method.  Backend methods are
  assumed to respond (they neither panic nor diverge themselves).
-/

/-- Pointer `*T`: `none` is the nil pointer. -/
abbrev Ptr (α : Type) : Type := Option α

/-- Modelled from the spec: the fields of `api.Secret` (declared in `pkg/api`):
a namespaced, named record carrying key/value data, labels and a resource
version. -/
structure api.Secret where
  Namespace : String
  Name : String
  Labels : List (String × String)
  ResourceVersion : String
  Data : List (String × String)
deriving DecidableEq, Repr

/-- Modelled from the spec: `api.SecretList` (declared in `pkg/api`): an ordered
sequence of secrets plus the resource version of the snapshot. -/
structure api.SecretList where
  ResourceVersion : String
  Items : List api.Secret
deriving DecidableEq, Repr

/-- Modelled from the spec: `api.Context` (declared in `pkg/api`): request-scoped
namespace and identity, opaque to the adapter. -/
structure api.Context where
  Namespace : String
  User : String
deriving DecidableEq, Repr

/-- Modelled from the spec: `api.DeleteOptions` (declared in `pkg/api`); the
adapter only ever passes the nil pointer. -/
structure api.DeleteOptions where
  GracePeriodSeconds : Option Int
deriving DecidableEq, Repr

/-- Modelled from the spec: `labels.Selector` (declared in `pkg/labels`): a
predicate over object labels, here the conjunction of `key = value` terms. -/
structure labels.Selector where
  terms : List (String × String)
deriving DecidableEq, Repr

/-- Modelled from the spec: `fields.Selector` (declared in `pkg/fields`): a
predicate over structured fields, here the conjunction of `field = value`
terms. -/
structure fields.Selector where
  terms : List (String × String)
deriving DecidableEq, Repr

/-- Modelled from the spec: `fields.Everything()` (declared in `pkg/fields`): the
selector that matches unconditionally, the empty conjunction. -/
def fields.Everything : fields.Selector := ⟨[]⟩

/-- Modelled from the spec: `watch.Interface` (declared in `pkg/watch`): an
interface value, `nil` or a handle on a live subscription. -/
inductive watch.Interface where
  | nil
  | handle (id : Nat)
deriving DecidableEq, Repr

/-- A non-nil value of Go's `error` interface. -/
structure ErrorValue where
  reason : String
  message : String
deriving DecidableEq, Repr

/-- Go's `error` interface value: `none` is `nil`. -/
abbrev error : Type := Option ErrorValue

/-- A value of the `runtime.Object` interface, tagged with its dynamic type.
`nil` is the nil interface; `secret none` is a nil pointer of dynamic type
`*api.Secret` (a non-nil interface value); `other kind` stands for a value of
any other dynamic type. -/
inductive runtime.Object where
  | nil
  | secret (p : Ptr api.Secret)
  | secretList (p : Ptr api.SecretList)
  | other (kind : String)
deriving DecidableEq, Repr

/-- One call on the backend, with the arguments it received. -/
inductive Call where
  | List (ctx : api.Context) (label : labels.Selector) (field : fields.Selector)
  | Watch (ctx : api.Context) (label : labels.Selector) (field : fields.Selector)
      (resourceVersion : String)
  | Get (ctx : api.Context) (name : String)
  | Create (ctx : api.Context) (obj : runtime.Object)
  | Update (ctx : api.Context) (obj : runtime.Object)
  | Delete (ctx : api.Context) (name : String) (options : Ptr api.DeleteOptions)
deriving DecidableEq, Repr

/-- The world a Go function runs in: the backend's state and the backend calls
made so far, oldest first. -/
structure World (σ : Type) where
  backend : σ
  calls : List Call

/-- How a Go function ends: it returns a value or it panics. -/
inductive Outcome (α : Type) where
  | returned (v : α)
  | panicked
deriving DecidableEq, Repr

/-- A Go function body: from a world to an outcome and the world it leaves. -/
def Go (σ α : Type) : Type := World σ → Outcome α × World σ

/-- Returning a value leaves the world alone. -/
def Go.ret {σ α : Type} (v : α) : Go σ α := fun w => (Outcome.returned v, w)

/-- Sequencing: a panic in the first part skips the rest. -/
def Go.seq {σ α β : Type} (m : Go σ α) (f : α → Go σ β) : Go σ β := fun w =>
  match m w with
  | (Outcome.returned v, w1) => f v w1
  | (Outcome.panicked, w1) => (Outcome.panicked, w1)

instance {σ : Type} : Monad (Go σ) where
  pure := Go.ret
  bind := Go.seq

/-- A call of a backend method: the call is logged and the backend moves to
the state its method leaves. -/
def invoke {σ α : Type} (c : Call) (method : σ → α × σ) : Go σ α := fun w =>
  let r := method w.backend
  (Outcome.returned r.1, { backend := r.2, calls := w.calls ++ [c] })

/-- Modelled from the spec: the interface `rest.StandardStorage` (declared in
`pkg/api/rest`), with the method signatures the adapter calls them at.  Every
method reads and updates the backend state `σ`. -/
structure rest.StandardStorage (σ : Type) where
  List : api.Context → labels.Selector → fields.Selector → σ → (runtime.Object × error) × σ
  Watch : api.Context → labels.Selector → fields.Selector → String → σ →
    (watch.Interface × error) × σ
  Get : api.Context → String → σ → (runtime.Object × error) × σ
  Create : api.Context → runtime.Object → σ → (runtime.Object × error) × σ
  Update : api.Context → runtime.Object → σ → (runtime.Object × Bool × error) × σ
  Delete : api.Context → String → Ptr api.DeleteOptions → σ → (runtime.Object × error) × σ

/-- The struct `storage`, which embeds a `rest.StandardStorage`. -/
structure storage (σ : Type) where
  StandardStorage : rest.StandardStorage σ

/-- The type assertion `obj.(*api.Secret)`: it panics unless the dynamic type
of `obj` is `*api.Secret`. -/
def assertSecret {σ : Type} : runtime.Object → Go σ (Ptr api.Secret)
  | runtime.Object.secret p => pure p
  | _ => fun w => (Outcome.panicked, w)

/-- The type assertion `obj.(*api.SecretList)`. -/
def assertSecretList {σ : Type} : runtime.Object → Go σ (Ptr api.SecretList)
  | runtime.Object.secretList p => pure p
  | _ => fun w => (Outcome.panicked, w)

/-- The promoted method `s.List`. -/
def storage.List {σ : Type} (s : storage σ) (ctx : api.Context) (label : labels.Selector)
    (field : fields.Selector) : Go σ (runtime.Object × error) :=
  invoke (Call.List ctx label field) (s.StandardStorage.List ctx label field)

/-- The promoted method `s.Watch`. -/
def storage.Watch {σ : Type} (s : storage σ) (ctx : api.Context) (label : labels.Selector)
    (field : fields.Selector) (resourceVersion : String) : Go σ (watch.Interface × error) :=
  invoke (Call.Watch ctx label field resourceVersion)
    (s.StandardStorage.Watch ctx label field resourceVersion)

/-- The promoted method `s.Get`. -/
def storage.Get {σ : Type} (s : storage σ) (ctx : api.Context) (name : String) :
    Go σ (runtime.Object × error) :=
  invoke (Call.Get ctx name) (s.StandardStorage.Get ctx name)

/-- The promoted method `s.Create`. -/
def storage.Create {σ : Type} (s : storage σ) (ctx : api.Context) (obj : runtime.Object) :
    Go σ (runtime.Object × error) :=
  invoke (Call.Create ctx obj) (s.StandardStorage.Create ctx obj)

/-- The promoted method `s.Update`. -/
def storage.Update {σ : Type} (s : storage σ) (ctx : api.Context) (obj : runtime.Object) :
    Go σ (runtime.Object × Bool × error) :=
  invoke (Call.Update ctx obj) (s.StandardStorage.Update ctx obj)

/-- The promoted method `s.Delete`. -/
def storage.Delete {σ : Type} (s : storage σ) (ctx : api.Context) (name : String)
    (options : Ptr api.DeleteOptions) : Go σ (runtime.Object × error) :=
  invoke (Call.Delete ctx name options) (s.StandardStorage.Delete ctx name options)

/-- The constructor `NewRegistry`: `return &storage{s}`. -/
def NewRegistry {σ : Type} (s : rest.StandardStorage σ) : Go σ (storage σ) :=
  pure { StandardStorage := s }

/-- The method `ListSecrets`. -/
def storage.ListSecrets {σ : Type} (s : storage σ) (ctx : api.Context)
    (label : labels.Selector) : Go σ (Ptr api.SecretList × error) := do
  let (obj, err) ← s.List ctx label fields.Everything
  if err.isSome then
    return (none, err)
  let l ← assertSecretList obj
  return (l, none)

/-- The method `WatchSecrets`. -/
def storage.WatchSecrets {σ : Type} (s : storage σ) (ctx : api.Context)
    (label : labels.Selector) (field : fields.Selector) (resourceVersion : String) :
    Go σ (watch.Interface × error) :=
  s.Watch ctx label field resourceVersion

/-- The method `GetSecret`. -/
def storage.GetSecret {σ : Type} (s : storage σ) (ctx : api.Context) (name : String) :
    Go σ (Ptr api.Secret × error) := do
  let (obj, err) ← s.Get ctx name
  if err.isSome then
    return (none, err)
  let p ← assertSecret obj
  return (p, none)

/-- The method `CreateSecret`. -/
def storage.CreateSecret {σ : Type} (s : storage σ) (ctx : api.Context)
    (secret : Ptr api.Secret) : Go σ (Ptr api.Secret × error) := do
  let (obj, err) ← s.Create ctx (runtime.Object.secret secret)
  let p ← assertSecret obj
  return (p, err)

/-- The method `UpdateSecret`. -/
def storage.UpdateSecret {σ : Type} (s : storage σ) (ctx : api.Context)
    (secret : Ptr api.Secret) : Go σ (Ptr api.Secret × error) := do
  let (obj, _, err) ← s.Update ctx (runtime.Object.secret secret)
  let p ← assertSecret obj
  return (p, err)

/-- The method `DeleteSecret`. -/
def storage.DeleteSecret {σ : Type} (s : storage σ) (ctx : api.Context) (name : String) :
    Go σ error := do
  let (_, err) ← s.Delete ctx name none
  return err

/-- The dynamic type of `obj` is `*api.Secret`. -/
def runtime.Object.isSecret : runtime.Object → Bool
  | runtime.Object.secret _ => true
  | _ => false

/-- The dynamic type of `obj` is `*api.SecretList`. -/
def runtime.Object.isSecretList : runtime.Object → Bool
  | runtime.Object.secretList _ => true
  | _ => false

/-- The function returned normally. -/
def Outcome.isReturned {α : Type} : Outcome α → Bool
  | Outcome.returned _ => true
  | Outcome.panicked => false

/-- A backend test double: it answers every call with the same object, created
flag, error and watch handle, and counts the calls it has served. -/
def canned (obj : runtime.Object) (created : Bool) (err : error) (h : watch.Interface) :
    rest.StandardStorage Nat where
  List := fun _ _ _ n => ((obj, err), n + 1)
  Watch := fun _ _ _ _ n => ((h, err), n + 1)
  Get := fun _ _ n => ((obj, err), n + 1)
  Create := fun _ _ n => ((obj, err), n + 1)
  Update := fun _ _ n => ((obj, created, err), n + 1)
  Delete := fun _ _ _ n => ((obj, err), n + 1)

/-- The request context used in the examples. -/
def ctx0 : api.Context := { Namespace := "default", User := "admin" }

/-- The secret of the example scenario. -/
def dbPass : api.Secret :=
  { Namespace := "default", Name := "db-pass", Labels := [("app", "db")],
    ResourceVersion := "1", Data := [("password", "x")] }

/-- A label selector used in the examples. -/
def appDb : labels.Selector := ⟨[("app", "db")]⟩

/-- A field selector used in the examples. -/
def byName : fields.Selector := ⟨[("metadata.name", "db-pass")]⟩

/-- A backend error: the name is absent. -/
def notFound : ErrorValue := { reason := "NotFound", message := "secret not found" }

/-- A backend error: the name is taken. -/
def alreadyExists : ErrorValue :=
  { reason := "AlreadyExists", message := "secret already exists" }

/-- A backend error: the resource version is stale. -/
def conflict : ErrorValue := { reason := "Conflict", message := "stale resource version" }

/-- A world in which no backend call has been made yet. -/
def w0 : World Nat := { backend := 0, calls := [] }

/-! ## What each operation computes -/

theorem storage.ListSecrets_run {σ : Type} (s : storage σ) (ctx : api.Context)
    (label : labels.Selector) (w : World σ) :
    s.ListSecrets ctx label w =
      (match (s.StandardStorage.List ctx label fields.Everything w.backend).1 with
        | (_, some e) => Outcome.returned (none, some e)
        | (runtime.Object.secretList l, none) => Outcome.returned (l, none)
        | (_, none) => Outcome.panicked,
       { backend := (s.StandardStorage.List ctx label fields.Everything w.backend).2,
         calls := w.calls ++ [Call.List ctx label fields.Everything] }) := by
  unfold storage.ListSecrets storage.List
  simp only [bind, Go.seq, invoke, pure, Go.ret]
  rcases s.StandardStorage.List ctx label fields.Everything w.backend with ⟨⟨obj, err⟩, st⟩
  cases err <;> cases obj <;> rfl

theorem storage.WatchSecrets_run {σ : Type} (s : storage σ) (ctx : api.Context)
    (label : labels.Selector) (field : fields.Selector) (resourceVersion : String)
    (w : World σ) :
    s.WatchSecrets ctx label field resourceVersion w =
      (Outcome.returned (s.StandardStorage.Watch ctx label field resourceVersion w.backend).1,
       { backend := (s.StandardStorage.Watch ctx label field resourceVersion w.backend).2,
         calls := w.calls ++ [Call.Watch ctx label field resourceVersion] }) := rfl

theorem storage.GetSecret_run {σ : Type} (s : storage σ) (ctx : api.Context) (name : String)
    (w : World σ) :
    s.GetSecret ctx name w =
      (match (s.StandardStorage.Get ctx name w.backend).1 with
        | (_, some e) => Outcome.returned (none, some e)
        | (runtime.Object.secret p, none) => Outcome.returned (p, none)
        | (_, none) => Outcome.panicked,
       { backend := (s.StandardStorage.Get ctx name w.backend).2,
         calls := w.calls ++ [Call.Get ctx name] }) := by
  unfold storage.GetSecret storage.Get
  simp only [bind, Go.seq, invoke, pure, Go.ret]
  rcases s.StandardStorage.Get ctx name w.backend with ⟨⟨obj, err⟩, st⟩
  cases err <;> cases obj <;> rfl

theorem storage.CreateSecret_run {σ : Type} (s : storage σ) (ctx : api.Context)
    (secret : Ptr api.Secret) (w : World σ) :
    s.CreateSecret ctx secret w =
      (match (s.StandardStorage.Create ctx (runtime.Object.secret secret) w.backend).1 with
        | (runtime.Object.secret p, err) => Outcome.returned (p, err)
        | _ => Outcome.panicked,
       { backend := (s.StandardStorage.Create ctx (runtime.Object.secret secret) w.backend).2,
         calls := w.calls ++ [Call.Create ctx (runtime.Object.secret secret)] }) := by
  unfold storage.CreateSecret storage.Create
  simp only [bind, Go.seq, invoke, pure, Go.ret]
  rcases s.StandardStorage.Create ctx (runtime.Object.secret secret) w.backend with
    ⟨⟨obj, err⟩, st⟩
  cases obj <;> rfl

theorem storage.UpdateSecret_run {σ : Type} (s : storage σ) (ctx : api.Context)
    (secret : Ptr api.Secret) (w : World σ) :
    s.UpdateSecret ctx secret w =
      (match (s.StandardStorage.Update ctx (runtime.Object.secret secret) w.backend).1 with
        | (runtime.Object.secret p, _, err) => Outcome.returned (p, err)
        | _ => Outcome.panicked,
       { backend := (s.StandardStorage.Update ctx (runtime.Object.secret secret) w.backend).2,
         calls := w.calls ++ [Call.Update ctx (runtime.Object.secret secret)] }) := by
  unfold storage.UpdateSecret storage.Update
  simp only [bind, Go.seq, invoke, pure, Go.ret]
  rcases s.StandardStorage.Update ctx (runtime.Object.secret secret) w.backend with
    ⟨⟨obj, created, err⟩, st⟩
  cases obj <;> rfl

theorem storage.DeleteSecret_run {σ : Type} (s : storage σ) (ctx : api.Context) (name : String)
    (w : World σ) :
    s.DeleteSecret ctx name w =
      (Outcome.returned (s.StandardStorage.Delete ctx name none w.backend).1.2,
       { backend := (s.StandardStorage.Delete ctx name none w.backend).2,
         calls := w.calls ++ [Call.Delete ctx name none] }) := rfl

/-! ## Properties of the adapter -/

/-- C1, evaluated where it fails: a backend whose Create and Update answer with
no object and a non-nil error (the name is taken, the version is stale).
CreateSecret and UpdateSecret panic after the one backend call instead of
returning the error, while GetSecret on the same kind of answer returns
the error. -/
theorem create_update_panic_on_backend_error :
    storage.CreateSecret ⟨canned runtime.Object.nil false (some alreadyExists) watch.Interface.nil⟩
        ctx0 (some dbPass) w0 =
      (Outcome.panicked,
       { backend := 1, calls := [Call.Create ctx0 (runtime.Object.secret (some dbPass))] }) ∧
    storage.UpdateSecret ⟨canned runtime.Object.nil false (some conflict) watch.Interface.nil⟩
        ctx0 (some dbPass) w0 =
      (Outcome.panicked,
       { backend := 1, calls := [Call.Update ctx0 (runtime.Object.secret (some dbPass))] }) ∧
    storage.GetSecret ⟨canned runtime.Object.nil false (some alreadyExists) watch.Interface.nil⟩
        ctx0 "db-pass" w0 =
      (Outcome.returned (none, some alreadyExists),
       { backend := 1, calls := [Call.Get ctx0 "db-pass"] }) :=
  ⟨rfl, rfl, rfl⟩

/-- C2: when the backend answers with a nil error and an object whose dynamic
type is not the expected one (the nil interface included), GetSecret,
CreateSecret and UpdateSecret (expected `*api.Secret`) and ListSecrets
(expected `*api.SecretList`) panic: they return nothing to the caller. -/
theorem kind_mismatch_panics {σ : Type} (s : storage σ) (ctx : api.Context) (name : String)
    (label : labels.Selector) (secret : Ptr api.Secret) (w : World σ) :
    (∀ obj st, s.StandardStorage.Get ctx name w.backend = ((obj, none), st) →
        obj.isSecret = false → (s.GetSecret ctx name w).1 = Outcome.panicked) ∧
    (∀ obj st, s.StandardStorage.List ctx label fields.Everything w.backend = ((obj, none), st) →
        obj.isSecretList = false → (s.ListSecrets ctx label w).1 = Outcome.panicked) ∧
    (∀ obj st,
        s.StandardStorage.Create ctx (runtime.Object.secret secret) w.backend = ((obj, none), st) →
        obj.isSecret = false → (s.CreateSecret ctx secret w).1 = Outcome.panicked) ∧
    (∀ obj created st,
        s.StandardStorage.Update ctx (runtime.Object.secret secret) w.backend =
          ((obj, created, none), st) →
        obj.isSecret = false → (s.UpdateSecret ctx secret w).1 = Outcome.panicked) := by
  refine ⟨?_, ?_, ?_, ?_⟩
  · intro obj st h hk
    rw [storage.GetSecret_run, h]
    cases obj <;> first | rfl | cases hk
  · intro obj st h hk
    rw [storage.ListSecrets_run, h]
    cases obj <;> first | rfl | cases hk
  · intro obj st h hk
    rw [storage.CreateSecret_run, h]
    cases obj <;> first | rfl | cases hk
  · intro obj created st h hk
    rw [storage.UpdateSecret_run, h]
    cases obj <;> first | rfl | cases hk

/-- Witness of C2: a backend bound to pods answers every call with a pod and a
nil error; the four narrowing operations panic. -/
theorem kind_mismatch_panics_witness :
    (canned (runtime.Object.other "Pod") true none watch.Interface.nil).Get ctx0 "db-pass"
        w0.backend = ((runtime.Object.other "Pod", none), 1) ∧
    (runtime.Object.other "Pod").isSecret = false ∧
    (runtime.Object.other "Pod").isSecretList = false ∧
    (storage.GetSecret ⟨canned (runtime.Object.other "Pod") true none watch.Interface.nil⟩
        ctx0 "db-pass" w0).1 = Outcome.panicked ∧
    (storage.ListSecrets ⟨canned (runtime.Object.other "Pod") true none watch.Interface.nil⟩
        ctx0 appDb w0).1 = Outcome.panicked ∧
    (storage.CreateSecret ⟨canned (runtime.Object.other "Pod") true none watch.Interface.nil⟩
        ctx0 (some dbPass) w0).1 = Outcome.panicked ∧
    (storage.UpdateSecret ⟨canned (runtime.Object.other "Pod") true none watch.Interface.nil⟩
        ctx0 (some dbPass) w0).1 = Outcome.panicked :=
  have h := kind_mismatch_panics
    ⟨canned (runtime.Object.other "Pod") true none watch.Interface.nil⟩ ctx0 "db-pass" appDb
    (some dbPass) w0
  ⟨rfl, rfl, rfl, h.1 _ _ rfl rfl, h.2.1 _ _ rfl rfl, h.2.2.1 _ _ rfl rfl,
    h.2.2.2 _ _ _ rfl rfl⟩

/-- C3: ListSecrets makes exactly one backend call, List with the caller's
context and label selector and the match-everything field selector: the log
grows by that one call and the backend is left in the state that call
leaves. -/
theorem ListSecrets_calls_List_everything {σ : Type} (s : storage σ) (ctx : api.Context)
    (sel : labels.Selector) (w : World σ) :
    (s.ListSecrets ctx sel w).2 =
      { backend := (s.StandardStorage.List ctx sel fields.Everything w.backend).2,
        calls := w.calls ++ [Call.List ctx sel fields.Everything] } := by
  rw [storage.ListSecrets_run]

/-- C4: DeleteSecret makes exactly one backend call, Delete with the caller's
context and name and nil options; it returns normally, whatever object the
backend answers with, and the error it returns is the backend's error, nil
exactly when the backend's error is nil. -/
theorem DeleteSecret_delegates {σ : Type} (s : storage σ) (ctx : api.Context) (n : String)
    (w : World σ) :
    s.DeleteSecret ctx n w =
      (Outcome.returned (s.StandardStorage.Delete ctx n none w.backend).1.2,
       { backend := (s.StandardStorage.Delete ctx n none w.backend).2,
         calls := w.calls ++ [Call.Delete ctx n none] }) ∧
    ((s.DeleteSecret ctx n w).1 = Outcome.returned none ↔
      (s.StandardStorage.Delete ctx n none w.backend).1.2 = none) := by
  refine ⟨storage.DeleteSecret_run s ctx n w, ?_⟩
  rw [storage.DeleteSecret_run]
  constructor
  · intro h
    exact Outcome.returned.inj h
  · intro h
    rw [h]

/-- C5: WatchSecrets makes exactly one backend call, Watch with the four
arguments unchanged and in the same positions, and returns the pair of watch
handle and error the backend answered with. -/
theorem WatchSecrets_passes_through {σ : Type} (s : storage σ) (ctx : api.Context)
    (label : labels.Selector) (field : fields.Selector) (rv : String) (w : World σ) :
    s.WatchSecrets ctx label field rv w =
      (Outcome.returned (s.StandardStorage.Watch ctx label field rv w.backend).1,
       { backend := (s.StandardStorage.Watch ctx label field rv w.backend).2,
         calls := w.calls ++ [Call.Watch ctx label field rv] }) :=
  storage.WatchSecrets_run s ctx label field rv w

/-- C6: when the backend answers Create or Update with an object of dynamic
type `*api.Secret`, CreateSecret and UpdateSecret return exactly that object
and the backend's error, also when the error is non-nil; UpdateSecret does not
look at the created flag: two backends whose answers differ only in that flag
give the same result. -/
theorem create_update_return_backend_pair {σ : Type} (ctx : api.Context)
    (secret : Ptr api.Secret) (w : World σ) :
    (∀ (s : storage σ) p err st,
        s.StandardStorage.Create ctx (runtime.Object.secret secret) w.backend =
          ((runtime.Object.secret p, err), st) →
        (s.CreateSecret ctx secret w).1 = Outcome.returned (p, err)) ∧
    (∀ (s : storage σ) p created err st,
        s.StandardStorage.Update ctx (runtime.Object.secret secret) w.backend =
          ((runtime.Object.secret p, created, err), st) →
        (s.UpdateSecret ctx secret w).1 = Outcome.returned (p, err)) ∧
    (∀ (s1 s2 : storage σ) obj c1 c2 err st,
        s1.StandardStorage.Update ctx (runtime.Object.secret secret) w.backend =
          ((obj, c1, err), st) →
        s2.StandardStorage.Update ctx (runtime.Object.secret secret) w.backend =
          ((obj, c2, err), st) →
        s1.UpdateSecret ctx secret w = s2.UpdateSecret ctx secret w) := by
  refine ⟨?_, ?_, ?_⟩
  · intro s p err st h
    rw [storage.CreateSecret_run, h]
  · intro s p created err st h
    rw [storage.UpdateSecret_run, h]
  · intro s1 s2 obj c1 c2 err st h1 h2
    rw [storage.UpdateSecret_run, storage.UpdateSecret_run, h1, h2]
    cases obj <;> rfl

/-- Witness of C6: the backend answers with the stored secret and a conflict
error; CreateSecret and UpdateSecret return both, whatever the created flag. -/
theorem create_update_return_backend_pair_witness :
    (canned (runtime.Object.secret (some dbPass)) true (some conflict)
        watch.Interface.nil).Update ctx0 (runtime.Object.secret none) w0.backend =
      ((runtime.Object.secret (some dbPass), true, some conflict), 1) ∧
    (storage.CreateSecret
        ⟨canned (runtime.Object.secret (some dbPass)) true (some conflict) watch.Interface.nil⟩
        ctx0 none w0).1 = Outcome.returned (some dbPass, some conflict) ∧
    (storage.UpdateSecret
        ⟨canned (runtime.Object.secret (some dbPass)) true (some conflict) watch.Interface.nil⟩
        ctx0 none w0).1 = Outcome.returned (some dbPass, some conflict) ∧
    storage.UpdateSecret
        ⟨canned (runtime.Object.secret (some dbPass)) true (some conflict) watch.Interface.nil⟩
        ctx0 none w0 =
      storage.UpdateSecret
        ⟨canned (runtime.Object.secret (some dbPass)) false (some conflict) watch.Interface.nil⟩
        ctx0 none w0 :=
  have h := create_update_return_backend_pair ctx0 none w0
  ⟨rfl, h.1 _ _ _ _ rfl, h.2.1 _ _ _ _ _ rfl, h.2.2 _ _ _ _ _ _ _ rfl rfl⟩

/-- C7: GetSecret and ListSecrets are determined by the backend's answer.  On
an object of the expected dynamic type with a nil error they return that
object, unchanged, with a nil error; on a non-nil error they return the nil
pointer and that error, whatever object came with it. -/
theorem get_list_determined_by_backend {σ : Type} (s : storage σ) (ctx : api.Context)
    (name : String) (sel : labels.Selector) (w : World σ) :
    (∀ p st, s.StandardStorage.Get ctx name w.backend = ((runtime.Object.secret p, none), st) →
        (s.GetSecret ctx name w).1 = Outcome.returned (p, none)) ∧
    (∀ obj e st, s.StandardStorage.Get ctx name w.backend = ((obj, some e), st) →
        (s.GetSecret ctx name w).1 = Outcome.returned (none, some e)) ∧
    (∀ l st,
        s.StandardStorage.List ctx sel fields.Everything w.backend =
          ((runtime.Object.secretList l, none), st) →
        (s.ListSecrets ctx sel w).1 = Outcome.returned (l, none)) ∧
    (∀ obj e st,
        s.StandardStorage.List ctx sel fields.Everything w.backend = ((obj, some e), st) →
        (s.ListSecrets ctx sel w).1 = Outcome.returned (none, some e)) := by
  refine ⟨?_, ?_, ?_, ?_⟩
  · intro p st h
    rw [storage.GetSecret_run, h]
  · intro obj e st h
    rw [storage.GetSecret_run, h]
    cases obj <;> rfl
  · intro l st h
    rw [storage.ListSecrets_run, h]
  · intro obj e st h
    rw [storage.ListSecrets_run, h]
    cases obj <;> rfl

/-- Witness of C7: a backend that answers with a pod and NotFound makes
GetSecret and ListSecrets return the nil pointer and NotFound; a backend that
answers with the stored secret and a nil error makes GetSecret return it. -/
theorem get_list_determined_by_backend_witness :
    (canned (runtime.Object.other "Pod") false (some notFound) watch.Interface.nil).Get ctx0
        "db-pass" w0.backend = ((runtime.Object.other "Pod", some notFound), 1) ∧
    (storage.GetSecret
        ⟨canned (runtime.Object.other "Pod") false (some notFound) watch.Interface.nil⟩
        ctx0 "db-pass" w0).1 = Outcome.returned (none, some notFound) ∧
    (storage.ListSecrets
        ⟨canned (runtime.Object.other "Pod") false (some notFound) watch.Interface.nil⟩
        ctx0 appDb w0).1 = Outcome.returned (none, some notFound) ∧
    (canned (runtime.Object.secret (some dbPass)) false none watch.Interface.nil).Get ctx0
        "db-pass" w0.backend = ((runtime.Object.secret (some dbPass), none), 1) ∧
    (storage.GetSecret
        ⟨canned (runtime.Object.secret (some dbPass)) false none watch.Interface.nil⟩
        ctx0 "db-pass" w0).1 = Outcome.returned (some dbPass, none) :=
  have h := get_list_determined_by_backend
    ⟨canned (runtime.Object.other "Pod") false (some notFound) watch.Interface.nil⟩
    ctx0 "db-pass" appDb w0
  have k := get_list_determined_by_backend
    ⟨canned (runtime.Object.secret (some dbPass)) false none watch.Interface.nil⟩
    ctx0 "db-pass" appDb w0
  ⟨rfl, h.2.1 _ _ _ rfl, h.2.2.2 _ _ _ rfl, rfl, k.1 _ _ rfl⟩

/-- C8: GetSecret, CreateSecret and UpdateSecret each make exactly one backend
call, to Get, Create and Update respectively, with the caller's context and
the caller's name or secret unchanged (also when they go on to panic); and the
outcome depends on the backend's answer alone: two calls with the same
arguments whose backend answers are the same end the same way, whatever was
called before and whatever state the backend is in. -/
theorem get_create_update_delegate_once {σ : Type} (s : storage σ) (ctx : api.Context)
    (name : String) (secret : Ptr api.Secret) (w : World σ) :
    (s.GetSecret ctx name w).2 =
      { backend := (s.StandardStorage.Get ctx name w.backend).2,
        calls := w.calls ++ [Call.Get ctx name] } ∧
    (s.CreateSecret ctx secret w).2 =
      { backend := (s.StandardStorage.Create ctx (runtime.Object.secret secret) w.backend).2,
        calls := w.calls ++ [Call.Create ctx (runtime.Object.secret secret)] } ∧
    (s.UpdateSecret ctx secret w).2 =
      { backend := (s.StandardStorage.Update ctx (runtime.Object.secret secret) w.backend).2,
        calls := w.calls ++ [Call.Update ctx (runtime.Object.secret secret)] } ∧
    (∀ (s2 : storage σ) (w2 : World σ),
        (s.StandardStorage.Get ctx name w.backend).1 =
          (s2.StandardStorage.Get ctx name w2.backend).1 →
        (s.GetSecret ctx name w).1 = (s2.GetSecret ctx name w2).1) ∧
    (∀ (s2 : storage σ) (w2 : World σ),
        (s.StandardStorage.Create ctx (runtime.Object.secret secret) w.backend).1 =
          (s2.StandardStorage.Create ctx (runtime.Object.secret secret) w2.backend).1 →
        (s.CreateSecret ctx secret w).1 = (s2.CreateSecret ctx secret w2).1) ∧
    (∀ (s2 : storage σ) (w2 : World σ),
        (s.StandardStorage.Update ctx (runtime.Object.secret secret) w.backend).1 =
          (s2.StandardStorage.Update ctx (runtime.Object.secret secret) w2.backend).1 →
        (s.UpdateSecret ctx secret w).1 = (s2.UpdateSecret ctx secret w2).1) := by
  refine ⟨?_, ?_, ?_, ?_, ?_, ?_⟩
  · rw [storage.GetSecret_run]
  · rw [storage.CreateSecret_run]
  · rw [storage.UpdateSecret_run]
  · intro s2 w2 h
    rw [storage.GetSecret_run, storage.GetSecret_run, h]
  · intro s2 w2 h
    rw [storage.CreateSecret_run, storage.CreateSecret_run, h]
  · intro s2 w2 h
    rw [storage.UpdateSecret_run, storage.UpdateSecret_run, h]

/-- Witness of C8: the same GetSecret call made first and made after two other
backend calls; the backend answers alike and the outcome is the same. -/
theorem get_create_update_delegate_once_witness :
    ((canned (runtime.Object.secret (some dbPass)) false none watch.Interface.nil).Get ctx0
        "db-pass" w0.backend).1 =
      ((canned (runtime.Object.secret (some dbPass)) false none watch.Interface.nil).Get ctx0
        "db-pass" 2).1 ∧
    (storage.GetSecret
        ⟨canned (runtime.Object.secret (some dbPass)) false none watch.Interface.nil⟩
        ctx0 "db-pass" w0).1 =
      (storage.GetSecret
        ⟨canned (runtime.Object.secret (some dbPass)) false none watch.Interface.nil⟩
        ctx0 "db-pass"
        { backend := 2, calls := [Call.Get ctx0 "x", Call.Delete ctx0 "x" none] }).1 ∧
    (storage.GetSecret
        ⟨canned (runtime.Object.secret (some dbPass)) false none watch.Interface.nil⟩
        ctx0 "db-pass"
        { backend := 2, calls := [Call.Get ctx0 "x", Call.Delete ctx0 "x" none] }).2.calls =
      [Call.Get ctx0 "x", Call.Delete ctx0 "x" none, Call.Get ctx0 "db-pass"] :=
  have h := get_create_update_delegate_once
    ⟨canned (runtime.Object.secret (some dbPass)) false none watch.Interface.nil⟩
    ctx0 "db-pass" (some dbPass) w0
  ⟨rfl, h.2.2.2.1 _ { backend := 2, calls := [Call.Get ctx0 "x", Call.Delete ctx0 "x" none] } rfl,
    rfl⟩

/-- C9: NewRegistry returns, for every backend handle, the adapter wrapping
exactly that handle, makes no backend call and does not panic.  A handle bound
to another kind is accepted all the same: the mismatch shows only later, in
each call that narrows a result.  On the adapter NewRegistry returned,
GetSecret and ListSecrets panic after their one backend call when the answer
is an object of another dynamic type with a nil error, CreateSecret and
UpdateSecret panic after their one backend call when the answer is an object
of another dynamic type, whatever the error; WatchSecrets and DeleteSecret,
which narrow nothing, return the backend's answer whatever the handle is bound
to. -/
theorem NewRegistry_never_validates {σ : Type} (s : rest.StandardStorage σ) (w : World σ) :
    NewRegistry s w = (Outcome.returned { StandardStorage := s }, w) ∧
    (∀ ctx name obj st, s.Get ctx name w.backend = ((obj, none), st) → obj.isSecret = false →
      Go.seq (NewRegistry s) (fun r => r.GetSecret ctx name) w =
        (Outcome.panicked, { backend := st, calls := w.calls ++ [Call.Get ctx name] })) ∧
    (∀ ctx label obj st, s.List ctx label fields.Everything w.backend = ((obj, none), st) →
      obj.isSecretList = false →
      Go.seq (NewRegistry s) (fun r => r.ListSecrets ctx label) w =
        (Outcome.panicked,
         { backend := st, calls := w.calls ++ [Call.List ctx label fields.Everything] })) ∧
    (∀ ctx secret obj err st,
      s.Create ctx (runtime.Object.secret secret) w.backend = ((obj, err), st) →
      obj.isSecret = false →
      Go.seq (NewRegistry s) (fun r => r.CreateSecret ctx secret) w =
        (Outcome.panicked,
         { backend := st,
           calls := w.calls ++ [Call.Create ctx (runtime.Object.secret secret)] })) ∧
    (∀ ctx secret obj created err st,
      s.Update ctx (runtime.Object.secret secret) w.backend = ((obj, created, err), st) →
      obj.isSecret = false →
      Go.seq (NewRegistry s) (fun r => r.UpdateSecret ctx secret) w =
        (Outcome.panicked,
         { backend := st,
           calls := w.calls ++ [Call.Update ctx (runtime.Object.secret secret)] })) ∧
    (∀ ctx label field rv,
      Go.seq (NewRegistry s) (fun r => r.WatchSecrets ctx label field rv) w =
        (Outcome.returned (s.Watch ctx label field rv w.backend).1,
         { backend := (s.Watch ctx label field rv w.backend).2,
           calls := w.calls ++ [Call.Watch ctx label field rv] })) ∧
    (∀ ctx name,
      Go.seq (NewRegistry s) (fun r => r.DeleteSecret ctx name) w =
        (Outcome.returned (s.Delete ctx name none w.backend).1.2,
         { backend := (s.Delete ctx name none w.backend).2,
           calls := w.calls ++ [Call.Delete ctx name none] })) := by
  refine ⟨rfl, ?_, ?_, ?_, ?_, ?_, ?_⟩
  · intro ctx name obj st h hk
    have hr : Go.seq (NewRegistry s) (fun r => r.GetSecret ctx name) w =
        storage.GetSecret { StandardStorage := s } ctx name w := rfl
    rw [hr, storage.GetSecret_run, h]
    cases obj <;> first | rfl | cases hk
  · intro ctx label obj st h hk
    have hr : Go.seq (NewRegistry s) (fun r => r.ListSecrets ctx label) w =
        storage.ListSecrets { StandardStorage := s } ctx label w := rfl
    rw [hr, storage.ListSecrets_run, h]
    cases obj <;> first | rfl | cases hk
  · intro ctx secret obj err st h hk
    have hr : Go.seq (NewRegistry s) (fun r => r.CreateSecret ctx secret) w =
        storage.CreateSecret { StandardStorage := s } ctx secret w := rfl
    rw [hr, storage.CreateSecret_run, h]
    cases obj <;> first | rfl | cases hk
  · intro ctx secret obj created err st h hk
    have hr : Go.seq (NewRegistry s) (fun r => r.UpdateSecret ctx secret) w =
        storage.UpdateSecret { StandardStorage := s } ctx secret w := rfl
    rw [hr, storage.UpdateSecret_run, h]
    cases obj <;> first | rfl | cases hk
  · intro ctx label field rv
    rfl
  · intro ctx name
    rfl

/-- Witness of C9: a handle bound to pods is wrapped without a call; each of
GetSecret, ListSecrets, CreateSecret and UpdateSecret that follows panics
after its one backend call, while WatchSecrets and DeleteSecret return. -/
theorem NewRegistry_never_validates_witness :
    (canned (runtime.Object.other "Pod") false none watch.Interface.nil).Get ctx0 "db-pass"
        w0.backend = ((runtime.Object.other "Pod", none), 1) ∧
    (runtime.Object.other "Pod").isSecret = false ∧
    (runtime.Object.other "Pod").isSecretList = false ∧
    (NewRegistry (canned (runtime.Object.other "Pod") false none watch.Interface.nil) w0).2.calls
      = [] ∧
    Go.seq (NewRegistry (canned (runtime.Object.other "Pod") false none watch.Interface.nil))
        (fun r => r.GetSecret ctx0 "db-pass") w0 =
      (Outcome.panicked, { backend := 1, calls := [] ++ [Call.Get ctx0 "db-pass"] }) ∧
    Go.seq (NewRegistry (canned (runtime.Object.other "Pod") false none watch.Interface.nil))
        (fun r => r.ListSecrets ctx0 appDb) w0 =
      (Outcome.panicked,
       { backend := 1, calls := [] ++ [Call.List ctx0 appDb fields.Everything] }) ∧
    Go.seq (NewRegistry (canned (runtime.Object.other "Pod") false none watch.Interface.nil))
        (fun r => r.CreateSecret ctx0 (some dbPass)) w0 =
      (Outcome.panicked,
       { backend := 1,
         calls := [] ++ [Call.Create ctx0 (runtime.Object.secret (some dbPass))] }) ∧
    Go.seq (NewRegistry (canned (runtime.Object.other "Pod") false none watch.Interface.nil))
        (fun r => r.UpdateSecret ctx0 (some dbPass)) w0 =
      (Outcome.panicked,
       { backend := 1,
         calls := [] ++ [Call.Update ctx0 (runtime.Object.secret (some dbPass))] }) ∧
    (Go.seq (NewRegistry (canned (runtime.Object.other "Pod") false none watch.Interface.nil))
        (fun r => r.WatchSecrets ctx0 appDb byName "1") w0).1 =
      Outcome.returned (watch.Interface.nil, none) ∧
    (Go.seq (NewRegistry (canned (runtime.Object.other "Pod") false none watch.Interface.nil))
        (fun r => r.DeleteSecret ctx0 "db-pass") w0).1 = Outcome.returned none :=
  have h := NewRegistry_never_validates
    (canned (runtime.Object.other "Pod") false none watch.Interface.nil) w0
  ⟨rfl, rfl, rfl, rfl, h.2.1 _ _ _ _ rfl rfl, h.2.2.1 _ _ _ _ rfl rfl,
    h.2.2.2.1 _ _ _ _ _ rfl rfl, h.2.2.2.2.1 _ _ _ _ _ _ rfl rfl, rfl, rfl⟩

/-- C10: CreateSecret and UpdateSecret narrow the backend's object before they
look at the error: they return normally exactly when the object's dynamic type
is `*api.Secret` (a nil pointer of that type included), whatever the error.
When the backend answers with no object and a non-nil error they panic, while
GetSecret and ListSecrets return the nil pointer and the error on such an
answer. -/
theorem create_update_narrow_before_error {σ : Type} (s : storage σ) (ctx : api.Context)
    (name : String) (label : labels.Selector) (secret : Ptr api.Secret) (w : World σ) :
    (s.CreateSecret ctx secret w).1.isReturned =
      (s.StandardStorage.Create ctx (runtime.Object.secret secret) w.backend).1.1.isSecret ∧
    (s.UpdateSecret ctx secret w).1.isReturned =
      (s.StandardStorage.Update ctx (runtime.Object.secret secret) w.backend).1.1.isSecret ∧
    (∀ err st,
        s.StandardStorage.Create ctx (runtime.Object.secret secret) w.backend =
          ((runtime.Object.secret none, err), st) →
        (s.CreateSecret ctx secret w).1 = Outcome.returned (none, err)) ∧
    (∀ created err st,
        s.StandardStorage.Update ctx (runtime.Object.secret secret) w.backend =
          ((runtime.Object.secret none, created, err), st) →
        (s.UpdateSecret ctx secret w).1 = Outcome.returned (none, err)) ∧
    (∀ e st,
        s.StandardStorage.Create ctx (runtime.Object.secret secret) w.backend =
          ((runtime.Object.nil, some e), st) →
        (s.CreateSecret ctx secret w).1 = Outcome.panicked) ∧
    (∀ created e st,
        s.StandardStorage.Update ctx (runtime.Object.secret secret) w.backend =
          ((runtime.Object.nil, created, some e), st) →
        (s.UpdateSecret ctx secret w).1 = Outcome.panicked) ∧
    (∀ e st, s.StandardStorage.Get ctx name w.backend = ((runtime.Object.nil, some e), st) →
        (s.GetSecret ctx name w).1 = Outcome.returned (none, some e)) ∧
    (∀ e st,
        s.StandardStorage.List ctx label fields.Everything w.backend =
          ((runtime.Object.nil, some e), st) →
        (s.ListSecrets ctx label w).1 = Outcome.returned (none, some e)) := by
  refine ⟨?_, ?_, ?_, ?_, ?_, ?_, ?_, ?_⟩
  · rw [storage.CreateSecret_run]
    rcases s.StandardStorage.Create ctx (runtime.Object.secret secret) w.backend with
      ⟨⟨obj, err⟩, st⟩
    cases obj <;> rfl
  · rw [storage.UpdateSecret_run]
    rcases s.StandardStorage.Update ctx (runtime.Object.secret secret) w.backend with
      ⟨⟨obj, created, err⟩, st⟩
    cases obj <;> rfl
  · intro err st h
    rw [storage.CreateSecret_run, h]
  · intro created err st h
    rw [storage.UpdateSecret_run, h]
  · intro e st h
    rw [storage.CreateSecret_run, h]
  · intro created e st h
    rw [storage.UpdateSecret_run, h]
  · intro e st h
    rw [storage.GetSecret_run, h]
  · intro e st h
    rw [storage.ListSecrets_run, h]

/-- Witness of C10: the backend answers every call with no object and
NotFound; CreateSecret and UpdateSecret panic, GetSecret and ListSecrets
return the error. -/
theorem create_update_narrow_before_error_witness :
    (canned runtime.Object.nil false (some notFound) watch.Interface.nil).Create ctx0
        (runtime.Object.secret (some dbPass)) w0.backend =
      ((runtime.Object.nil, some notFound), 1) ∧
    (storage.CreateSecret ⟨canned runtime.Object.nil false (some notFound) watch.Interface.nil⟩
        ctx0 (some dbPass) w0).1 = Outcome.panicked ∧
    (storage.UpdateSecret ⟨canned runtime.Object.nil false (some notFound) watch.Interface.nil⟩
        ctx0 (some dbPass) w0).1 = Outcome.panicked ∧
    (storage.GetSecret ⟨canned runtime.Object.nil false (some notFound) watch.Interface.nil⟩
        ctx0 "db-pass" w0).1 = Outcome.returned (none, some notFound) ∧
    (storage.ListSecrets ⟨canned runtime.Object.nil false (some notFound) watch.Interface.nil⟩
        ctx0 appDb w0).1 = Outcome.returned (none, some notFound) :=
  have h := create_update_narrow_before_error
    ⟨canned runtime.Object.nil false (some notFound) watch.Interface.nil⟩
    ctx0 "db-pass" appDb (some dbPass) w0
  ⟨rfl, h.2.2.2.2.1 _ _ rfl, h.2.2.2.2.2.1 _ _ _ rfl, h.2.2.2.2.2.2.1 _ _ rfl,
    h.2.2.2.2.2.2.2 _ _ rfl⟩
